import Mathlib

set_option maxHeartbeats 1000000

/-!
Shallow embedding of the authentication and task-management flow of the
Node.js task-manager backend.

Sources embedded:
  * `src/models/userModel.js`   — in-memory user store (`findById`,
    `findByUsername`, `create`).
  * `src/controllers/authController.js` — `signToken`, `register`, `login`.
  * `src/auth/authMiddleware.js` — the `protect` middleware.
  * `src/models/taskModel.js`   — in-memory task store.
  * `src/controllers/taskController.js` — `getTask`, `updateTask`,
    `deleteTask`.

Modelling conventions:
  * bcrypt and JWT signatures are cryptographic primitives from third-party
    libraries (`bcryptjs`, `jsonwebtoken`), not code of this repository;
    they are modelled as ideal primitives: a bcrypt hash records its salt and
    (abstractly, as an ideal collision-free one-way function) the hashed
    plaintext; a signed JWT records its payload and the secret it was signed
    with, so that signature verification succeeds exactly for the process
    secret.  A string that is not a well-formed token or hash is represented
    by an explicit `malformed` constructor.
  * The wire-level `Authorization` header is a string that the middleware
    splits on spaces; we model it as its first space-separated word
    (`scheme`) plus its optional second word (`second`), which is all the
    code reads (`header.split(' ')[1]`).
  * `uuidv4()` and bcrypt's random salt are external randomness: they are
    threaded as explicit parameters (`freshId`, `salt`).
  * The in-memory arrays are threaded as explicit state: every mutating
    operation takes the current list and returns the updated list.
  * `process.env.JWT_SECRET` / `JWT_EXPIRES_IN` are the process-wide
    configuration, passed as parameters `secret` and `expiresIn`.
  * The express-validator route middleware (username at least 3 characters,
    password at least 6 for register; both non-empty for login) runs before
    the controllers and is folded into `register` / `login` as their first
    check, mirroring the request pipeline; the sanitizers `trim().escape()`
    are modelled as the identity (claims quantify over sanitized inputs).
-/

/-- A bcrypt hash string (`bcryptjs`).  Modelled from the spec: the Password
Hasher is a thin wrapper over the external `bcryptjs` library, whose code is
not part of this repository.  `bcrypt salt plain` is the well-formed hash of
`plain` with the given salt (ideal one-way function: the hash determines the
plaintext it was computed from, and hashes of different plaintexts differ);
`malformedHash s` is any string that is not a well-formed bcrypt hash. -/
inductive HashStr where
  | bcrypt (salt : Nat) (plain : String)
  | malformedHash (s : String)
  deriving DecidableEq

/-- Modelled from the spec: `hash(plaintext)` applies a randomized salted
one-way function; the salt is threaded explicitly (bcryptjs draws it at
random).  Source call sites: `bcrypt.hash(password, 12)`. -/
def bcryptHash (plain : String) (salt : Nat) : HashStr :=
  .bcrypt salt plain

/-- Modelled from the spec: `verify(plaintext, hashString)` recomputes with
the embedded salt and compares; it returns false (never throws) for any
mismatch, including malformed hash strings.  Source call sites:
`bcrypt.compare(password, user.password)`. -/
def bcryptCompare (plain : String) (h : HashStr) : Bool :=
  match h with
  | .bcrypt _ stored => plain == stored
  | .malformedHash _ => false

/-- A user record as stored by `src/models/userModel.js`:
`{ id, username, password }` with `password` already hashed. -/
structure User where
  id : String
  username : String
  password : HashStr
  deriving DecidableEq

namespace UserModel

/-- `userModel.findById`: `users.find(user => user.id === id)`. -/
def findById (id : String) (users : List User) : Option User :=
  users.find? (fun u => u.id == id)

/-- `userModel.findByUsername`: `users.find(user => user.username === username)`. -/
def findByUsername (username : String) (users : List User) : Option User :=
  users.find? (fun u => u.username == username)

/-- `userModel.create`: builds `{ id: uuidv4(), username, password }`, pushes
it onto the array and returns it.  The fresh uuid is the explicit `freshId`
parameter. -/
def create (username : String) (password : HashStr) (freshId : String)
    (users : List User) : User × List User :=
  let newUser : User := ⟨freshId, username, password⟩
  (newUser, users ++ [newUser])

end UserModel

/-- The JWT payload produced by `signToken`: `{ id }` (plus the standard
`iat`/`exp` claims, carried on the token itself below). -/
structure JwtPayload where
  id : String
  deriving DecidableEq

/-- A JWT string on the wire.  `signed id iat exp secret` is the output of
`jwt.sign({ id }, secret, { expiresIn })` issued at time `iat` with
`exp = iat + expiresIn`: since signatures are unforgeable, a token whose
signature verifies under `secret` is exactly a token that was signed with
`secret`.  `malformed s` is any string that is not a well-formed signed
token (including the empty string, which is falsy in JS). -/
inductive TokenStr where
  | signed (id : String) (iat : Nat) (exp : Nat) (secret : String)
  | malformed (s : String)
  deriving DecidableEq

/-- Errors thrown by `jwt.verify` as discriminated by the middleware:
`JsonWebTokenError` (malformed token or invalid signature),
`TokenExpiredError`, and any other verification exception (caught by the
middleware's catch-all). -/
inductive JwtError where
  | jsonWebTokenError
  | tokenExpiredError
  | otherError
  deriving DecidableEq

/-- `jwt.sign({ id }, secret, { expiresIn })` at current time `now`. -/
def jwtSign (id : String) (secret : String) (now expiresIn : Nat) : TokenStr :=
  .signed id now (now + expiresIn) secret

/-- `jwt.verify(token, secret)` at current time `now`: rejects a malformed
token or one signed under a different secret with `JsonWebTokenError`, then
rejects an expired token (`now ≥ exp`) with `TokenExpiredError`, otherwise
returns the decoded payload. -/
def jwtVerify (t : TokenStr) (secret : String) (now : Nat) :
    Except JwtError JwtPayload :=
  match t with
  | .malformed _ => .error .jsonWebTokenError
  | .signed id _ exp tsecret =>
    if tsecret == secret then
      if now ≥ exp then .error .tokenExpiredError
      else .ok ⟨id⟩
    else .error .jsonWebTokenError

/-- `signToken` from `authController.js`:
`jwt.sign({ id }, process.env.JWT_SECRET, { expiresIn: process.env.JWT_EXPIRES_IN })`. -/
def signToken (id : String) (secret : String) (now expiresIn : Nat) : TokenStr :=
  jwtSign id secret now expiresIn

/-- JS `String.prototype.startsWith`, implemented over the character list so
that it is kernel-computable (the core `String.startsWith` is an external
function whose Lean model uses well-founded recursion). -/
def strStartsWith (s pre : String) : Bool :=
  pre.data.isPrefixOf s.data

/-- The `Authorization` request header, as read by the middleware: its first
space-separated word and its optional second word
(`req.headers.authorization.split(' ')[1]`). -/
structure AuthHeader where
  scheme : String
  second : Option TokenStr
  deriving DecidableEq

/-- The JS truthiness test `if (!token)`: of the modelled token strings only
the empty string is falsy. -/
def tokenFalsy (t : TokenStr) : Bool :=
  match t with
  | .malformed s => s == ""
  | .signed _ _ _ _ => false

/-- Outcome of the `protect` middleware: either the request proceeds with the
resolved user attached to the request context (`req.user = currentUser`), or
it is rejected with `next(new AppError(msg, status))`. -/
inductive AuthOutcome where
  | accepted (u : User)
  | rejected (status : Nat) (msg : String)
  deriving DecidableEq

namespace AuthMiddleware

/-- Token extraction from `protect`: `token` is set from
`req.headers.authorization.split(' ')[1]` only when the header exists and
`startsWith('Bearer')`; otherwise it stays undefined. -/
def extractToken (auth : Option AuthHeader) : Option TokenStr :=
  match auth with
  | some h => if strStartsWith h.scheme "Bearer" then h.second else none
  | none => none

/-- The try/catch body of `protect` after a token has been extracted:
verify the token, look up `decoded.id`, and map each `jwt.verify` exception
through the catch block (`JsonWebTokenError` → 401, `TokenExpiredError` →
401, anything else → 500). -/
def handleVerify (r : Except JwtError JwtPayload) (users : List User) :
    AuthOutcome :=
  match r with
  | .ok payload =>
    match UserModel.findById payload.id users with
    | some u => .accepted u
    | none => .rejected 401 "The user belonging to this token no longer exists."
  | .error .jsonWebTokenError => .rejected 401 "Invalid token. Please log in again!"
  | .error .tokenExpiredError => .rejected 401 "Your token has expired! Please log in again."
  | .error .otherError => .rejected 500 "Authentication failed."

/-- The `protect` middleware of `src/auth/authMiddleware.js`. -/
def protect (auth : Option AuthHeader) (secret : String) (now : Nat)
    (users : List User) : AuthOutcome :=
  match extractToken auth with
  | none => .rejected 401 "You are not logged in! Please log in to get access."
  | some t =>
    if tokenFalsy t then
      .rejected 401 "You are not logged in! Please log in to get access."
    else
      handleVerify (jwtVerify t secret now) users

end AuthMiddleware

/-- The public view of a user returned by `register`/`login`:
`{ id: user.id, username: user.username }` — by construction it has no
password-hash field. -/
structure PublicUser where
  id : String
  username : String
  deriving DecidableEq

/-- Response of `register`/`login`: success with HTTP status, token and
public user view, or `next(new AppError(msg, status))`. -/
inductive AuthResult where
  | ok (status : Nat) (token : TokenStr) (user : PublicUser)
  | err (status : Nat) (msg : String)
  deriving DecidableEq

namespace AuthController

/-- `register` from `authController.js`, composed with its route validation
(`username` at least 3 characters, `password` at least 6, from
`authRoutes.js`): duplicate-username check, hash, create, sign, 201.
Returns the response and the updated user store. -/
def register (username password : String) (salt : Nat) (freshId : String)
    (now : Nat) (secret : String) (expiresIn : Nat) (users : List User) :
    AuthResult × List User :=
  if username.length < 3 ∨ password.length < 6 then
    (.err 400 "Validation failed", users)
  else
    match UserModel.findByUsername username users with
    | some _ => (.err 409 "User with this username already exists", users)
    | none =>
      let hashedPassword := bcryptHash password salt
      let res := UserModel.create username hashedPassword freshId users
      let token := signToken res.fst.id secret now expiresIn
      (.ok 201 token ⟨res.fst.id, res.fst.username⟩, res.snd)

/-- `login` from `authController.js`, composed with its route validation
(both fields non-empty, from `authRoutes.js`).  The controller re-checks
`if (!username || !password)` (unreachable after the route validation, kept
for fidelity), then looks the user up and compares the password; an unknown
username and a failed comparison take the same error branch.  Returns the
response and the (unchanged) user store. -/
def login (username password : String) (now : Nat) (secret : String)
    (expiresIn : Nat) (users : List User) : AuthResult × List User :=
  if username == "" ∨ password == "" then
    (.err 400 "Validation failed", users)
  else if username == "" ∨ password == "" then
    (.err 400 "Please provide username and password!", users)
  else
    match UserModel.findByUsername username users with
    | none => (.err 401 "Incorrect username or password", users)
    | some user =>
      if bcryptCompare password user.password then
        (.ok 200 (signToken user.id secret now expiresIn)
          ⟨user.id, user.username⟩, users)
      else
        (.err 401 "Incorrect username or password", users)

end AuthController

namespace TaskModel

/-- A task record as stored by `src/models/taskModel.js`:
`{ id, userId, title, description, completed }`.  (Named `TaskModel.Task`
because `Task` is taken by the Lean core library.) -/
structure Task where
  id : String
  userId : String
  title : String
  description : String
  completed : Bool
  deriving DecidableEq

/-- The `req.body` of a task update (`PUT /api/tasks/:id`): each field is
optional (`express-validator` marks them `optional()`). -/
structure TaskUpdates where
  title : Option String
  description : Option String
  completed : Option Bool
  deriving DecidableEq

/-- `taskModel.findById`: `tasks.find(task => task.id === id)`. -/
def findById (id : String) (tasks : List Task) : Option Task :=
  tasks.find? (fun t => t.id == id)

/-- The merge `{ ...tasks[taskIndex], ...updates, id: ..., userId: ... }`:
present update fields override, while `id` and `userId` are forced back to
their stored values. -/
def applyUpdates (t : Task) (u : TaskUpdates) : Task :=
  { t with
    title := u.title.getD t.title
    description := u.description.getD t.description
    completed := u.completed.getD t.completed }

/-- Replace the first task with the given id by its updated version
(`tasks[taskIndex] = ...` at the `findIndex` position). -/
def updateList (id : String) (u : TaskUpdates) : List Task → List Task
  | [] => []
  | t :: ts =>
    if t.id == id then applyUpdates t u :: ts
    else t :: updateList id u ts

/-- `taskModel.update`: `findIndex`; if absent return null and leave the
array alone, else overwrite that slot with the merged record and return it. -/
def update (id : String) (u : TaskUpdates) (tasks : List Task) :
    Option Task × List Task :=
  match findById id tasks with
  | none => (none, tasks)
  | some t => (some (applyUpdates t u), updateList id u tasks)

/-- `taskModel.remove`: `tasks = tasks.filter(task => task.id !== id)`;
returns whether the array shrank. -/
def remove (id : String) (tasks : List Task) : Bool × List Task :=
  let tasks' := tasks.filter (fun t => t.id != id)
  (tasks'.length < tasks.length, tasks')

end TaskModel

/-- Response of a task-controller operation: success with HTTP status and
(for GET/PUT) the task in the body — `none` models the 204 No Content body
`data: null` — or `next(new AppError(msg, status))`. -/
inductive TaskOutcome where
  | success (status : Nat) (task : Option TaskModel.Task)
  | failure (status : Nat) (msg : String)
  deriving DecidableEq

namespace TaskController

/-- `getTask` from `taskController.js`, for the authenticated user `userId`:
404 when the task is absent or owned by someone else, else 200 with the
task.  Returns the (unchanged) task store alongside. -/
def getTask (id userId : String) (tasks : List TaskModel.Task) :
    TaskOutcome × List TaskModel.Task :=
  match TaskModel.findById id tasks with
  | none =>
    (.failure 404 "No task found with that ID or you do not have permission.", tasks)
  | some t =>
    if t.userId == userId then (.success 200 (some t), tasks)
    else
      (.failure 404 "No task found with that ID or you do not have permission.", tasks)

/-- `updateTask` from `taskController.js`: 404 when the task is absent or
owned by someone else (before any mutation), else apply
`taskModel.update` and answer 200 with the updated task. -/
def updateTask (id userId : String) (u : TaskModel.TaskUpdates) (tasks : List TaskModel.Task) :
    TaskOutcome × List TaskModel.Task :=
  match TaskModel.findById id tasks with
  | none =>
    (.failure 404 "No task found with that ID or you do not have permission to update it.", tasks)
  | some t =>
    if t.userId == userId then
      let res := TaskModel.update id u tasks
      (.success 200 res.fst, res.snd)
    else
      (.failure 404 "No task found with that ID or you do not have permission to update it.", tasks)

/-- `deleteTask` from `taskController.js`: 404 when the task is absent or
owned by someone else (before any mutation), else `taskModel.remove` and
204 No Content. -/
def deleteTask (id userId : String) (tasks : List TaskModel.Task) :
    TaskOutcome × List TaskModel.Task :=
  match TaskModel.findById id tasks with
  | none =>
    (.failure 404 "No task found with that ID or you do not have permission to delete it.", tasks)
  | some t =>
    if t.userId == userId then
      let res := TaskModel.remove id tasks
      (.success 204 none, res.snd)
    else
      (.failure 404 "No task found with that ID or you do not have permission to delete it.", tasks)

end TaskController

/-- One invocation of the Auth Service, with its external randomness
(`salt`, `freshId`) and clock reading recorded: the operations through which
the Credential Store is reachable in this flow. -/
inductive AuthOp where
  | reg (username password : String) (salt : Nat) (freshId : String) (now : Nat)
  | log (username password : String) (now : Nat)
  deriving DecidableEq

/-- Effect of one Auth Service invocation on the Credential Store. -/
def applyOp (secret : String) (expiresIn : Nat) (users : List User) :
    AuthOp → List User
  | .reg u p s f n => (AuthController.register u p s f n secret expiresIn users).snd
  | .log u p n => (AuthController.login u p n secret expiresIn users).snd

/-- Run a sequence of Auth Service invocations against the Credential Store. -/
def runOps (secret : String) (expiresIn : Nat) :
    List AuthOp → List User → List User
  | [], users => users
  | op :: ops, users => runOps secret expiresIn ops (applyOp secret expiresIn users op)

/-- No two records of the store share a username (case-sensitive: `==` on
strings is exact equality). -/
def uniqueUsernames (users : List User) : Prop :=
  users.Pairwise (fun a b => a.username ≠ b.username)


section Helpers

/-- Scanning an appended list finds nothing in the first part first. -/
theorem find?_append_of_none {α : Type} (p : α → Bool) (l₁ l₂ : List α)
    (h : l₁.find? p = none) : (l₁ ++ l₂).find? p = l₂.find? p := by
  induction l₁ with
  | nil => rfl
  | cons a l ih =>
    rw [List.find?_cons] at h
    cases hpa : p a with
    | true => simp [hpa] at h
    | false =>
      rw [List.cons_append, List.find?_cons, hpa]
      exact ih (by rwa [hpa] at h)

/-- A `protect` call whose header is exactly `Bearer` followed by a non-empty
token reduces to verification plus user resolution. -/
theorem protect_bearer (t : TokenStr) (secret : String) (now : Nat)
    (users : List User) (h : tokenFalsy t = false) :
    AuthMiddleware.protect (some ⟨"Bearer", some t⟩) secret now users
      = AuthMiddleware.handleVerify (jwtVerify t secret now) users := by
  have hs : strStartsWith "Bearer" "Bearer" = true := by decide
  unfold AuthMiddleware.protect AuthMiddleware.extractToken
  simp [hs, h]

end Helpers

/-- C1: for a request presenting the bearer token `signed id iat exp tsecret`,
the `protect` middleware accepts if and only if the token's signature
verifies under the process secret (`tsecret = secret`), the current time is
before the embedded expiry (`now < exp`), and the encoded subject `id`
resolves to an existing user in the store; moreover any accepted request has
exactly the resolved user attached to its context. -/
theorem protect_accept_iff (id : String) (iat exp : Nat)
    (tsecret secret : String) (now : Nat) (users : List User) :
    ((∃ u, AuthMiddleware.protect
        (some ⟨"Bearer", some (.signed id iat exp tsecret)⟩) secret now users
          = .accepted u)
      ↔ (tsecret = secret ∧ now < exp ∧
          ∃ u, UserModel.findById id users = some u))
    ∧ (∀ u, AuthMiddleware.protect
        (some ⟨"Bearer", some (.signed id iat exp tsecret)⟩) secret now users
          = .accepted u → UserModel.findById id users = some u) := by
  rw [protect_bearer (TokenStr.signed id iat exp tsecret) secret now users rfl]
  simp only [jwtVerify]
  split_ifs with hsec hexp
  · simp only [AuthMiddleware.handleVerify]
    refine ⟨⟨?_, ?_⟩, ?_⟩
    · rintro ⟨u, hu⟩; cases hu
    · rintro ⟨-, hlt, -⟩; exact absurd hlt (by omega)
    · intro u hu; cases hu
  · have hsec' : tsecret = secret := by simpa using hsec
    have hlt : now < exp := by omega
    simp only [AuthMiddleware.handleVerify]
    cases hres : UserModel.findById id users with
    | none =>
      refine ⟨⟨?_, ?_⟩, ?_⟩
      · rintro ⟨u, hu⟩; simp at hu
      · rintro ⟨-, -, u, hu⟩; cases hu
      · intro u hu; simp at hu
    | some u0 =>
      refine ⟨⟨?_, ?_⟩, ?_⟩
      · rintro ⟨u, hu⟩; exact ⟨hsec', hlt, u0, rfl⟩
      · rintro -; exact ⟨u0, rfl⟩
      · intro u hu
        simp at hu
        rw [hu]
  · have hsec' : tsecret ≠ secret := by simpa using hsec
    simp only [AuthMiddleware.handleVerify]
    refine ⟨⟨?_, ?_⟩, ?_⟩
    · rintro ⟨u, hu⟩; cases hu
    · rintro ⟨hs, -, -⟩; exact absurd hs hsec'
    · intro u hu; cases hu

/-- Witness for `protect_accept_iff`: a concrete valid token is accepted. -/
theorem protect_accept_iff_witness :
    ∃ u, AuthMiddleware.protect
        (some ⟨"Bearer", some (.signed "u1" 0 10 "s")⟩) "s" 5
        [⟨"u1", "alice", .bcrypt 0 "pw"⟩] = .accepted u :=
  (protect_accept_iff "u1" 0 10 "s" "s" 5 [⟨"u1", "alice", .bcrypt 0 "pw"⟩]).1.mpr
    ⟨rfl, by decide, ⟨"u1", "alice", .bcrypt 0 "pw"⟩, by decide⟩

/-- C3 (amended): the rejection taxonomy of `protect` as the code implements
it.  The no-token rejection (401 Unauthenticated) fires exactly when the
header is absent, its first word does not start with the prefix `Bearer`, or
it has no non-empty second word; when the first word merely starts with
`Bearer`, the second word is processed as a token: malformed token or wrong
signature → 401 InvalidToken; valid signature but expired → 401
TokenExpired; any other verification exception → 500 AuthFailure; valid
unexpired token with unknown subject → 401 StaleUser. -/
theorem protect_rejection_taxonomy (secret : String) (now : Nat)
    (users : List User) :
    (AuthMiddleware.protect none secret now users
        = .rejected 401 "You are not logged in! Please log in to get access.")
    ∧ (∀ h : AuthHeader, strStartsWith h.scheme "Bearer" = false →
        AuthMiddleware.protect (some h) secret now users
          = .rejected 401 "You are not logged in! Please log in to get access.")
    ∧ (∀ scheme : String,
        AuthMiddleware.protect (some ⟨scheme, none⟩) secret now users
          = .rejected 401 "You are not logged in! Please log in to get access.")
    ∧ (∀ scheme : String,
        AuthMiddleware.protect (some ⟨scheme, some (.malformed "")⟩) secret now users
          = .rejected 401 "You are not logged in! Please log in to get access.")
    ∧ (∀ s : String, s ≠ "" →
        AuthMiddleware.protect (some ⟨"Bearer", some (.malformed s)⟩) secret now users
          = .rejected 401 "Invalid token. Please log in again!")
    ∧ (∀ (id : String) (iat exp : Nat) (tsecret : String), tsecret ≠ secret →
        AuthMiddleware.protect
            (some ⟨"Bearer", some (.signed id iat exp tsecret)⟩) secret now users
          = .rejected 401 "Invalid token. Please log in again!")
    ∧ (∀ (id : String) (iat exp : Nat), now ≥ exp →
        AuthMiddleware.protect
            (some ⟨"Bearer", some (.signed id iat exp secret)⟩) secret now users
          = .rejected 401 "Your token has expired! Please log in again.")
    ∧ (AuthMiddleware.handleVerify (.error .otherError) users
        = .rejected 500 "Authentication failed.")
    ∧ (∀ (id : String) (iat exp : Nat), now < exp →
        UserModel.findById id users = none →
        AuthMiddleware.protect
            (some ⟨"Bearer", some (.signed id iat exp secret)⟩) secret now users
          = .rejected 401 "The user belonging to this token no longer exists.") := by
  refine ⟨rfl, ?_, ?_, ?_, ?_, ?_, ?_, rfl, ?_⟩
  · intro h hstart
    unfold AuthMiddleware.protect AuthMiddleware.extractToken
    simp [hstart]
  · intro scheme
    unfold AuthMiddleware.protect AuthMiddleware.extractToken
    cases hb : strStartsWith scheme "Bearer" <;> simp [hb]
  · intro scheme
    unfold AuthMiddleware.protect AuthMiddleware.extractToken
    cases hb : strStartsWith scheme "Bearer" <;> simp [hb, tokenFalsy]
  · intro s hs
    rw [protect_bearer (TokenStr.malformed s) secret now users
      (by simpa [tokenFalsy] using hs)]
    rfl
  · intro id iat exp tsecret hne
    rw [protect_bearer (TokenStr.signed id iat exp tsecret) secret now users rfl]
    simp [jwtVerify, AuthMiddleware.handleVerify, hne]
  · intro id iat exp hexp
    rw [protect_bearer (TokenStr.signed id iat exp secret) secret now users rfl]
    simp [jwtVerify, AuthMiddleware.handleVerify, hexp]
  · intro id iat exp hlt hres
    rw [protect_bearer (TokenStr.signed id iat exp secret) secret now users rfl]
    simp [jwtVerify, AuthMiddleware.handleVerify,
      show ¬ now ≥ exp from by omega, hres]

/-- Counterexample to C3 as stated: the header `BearerX garbage` carries no
bearer credential of shape `Bearer <token>` (its first word is `BearerX`,
not `Bearer`), yet `protect` does not reject it as 401 Unauthenticated — the
`startsWith('Bearer')` check accepts the word, the second word is processed
as a token, and the request is rejected as 401 InvalidToken instead. -/
theorem protect_rejection_taxonomy_cex :
    strStartsWith "BearerX" "Bearer" = true
    ∧ "BearerX" ≠ "Bearer"
    ∧ AuthMiddleware.protect
        (some ⟨"BearerX", some (.malformed "garbage")⟩) "secret" 0 []
        = .rejected 401 "Invalid token. Please log in again!"
    ∧ ("Invalid token. Please log in again!"
        ≠ "You are not logged in! Please log in to get access.") := by
  refine ⟨by decide, by decide, ?_, by decide⟩
  rfl

/-- Witness for `protect_rejection_taxonomy`: each guarded clause applied at
a concrete request. -/
theorem protect_rejection_taxonomy_witness :
    AuthMiddleware.protect (some ⟨"Basic", some (.malformed "zzz")⟩) "s" 0 []
        = .rejected 401 "You are not logged in! Please log in to get access."
    ∧ AuthMiddleware.protect (some ⟨"Bearer", some (.malformed "zzz")⟩) "s" 0 []
        = .rejected 401 "Invalid token. Please log in again!"
    ∧ AuthMiddleware.protect (some ⟨"Bearer", some (.signed "u1" 0 10 "t")⟩) "s" 0 []
        = .rejected 401 "Invalid token. Please log in again!"
    ∧ AuthMiddleware.protect (some ⟨"Bearer", some (.signed "u1" 0 10 "s")⟩) "s" 10 []
        = .rejected 401 "Your token has expired! Please log in again."
    ∧ AuthMiddleware.protect (some ⟨"Bearer", some (.signed "u1" 0 10 "s")⟩) "s" 5 []
        = .rejected 401 "The user belonging to this token no longer exists." := by
  refine ⟨?_, ?_, ?_, ?_, ?_⟩
  · exact (protect_rejection_taxonomy "s" 0 []).2.1
      ⟨"Basic", some (.malformed "zzz")⟩ (by decide)
  · exact (protect_rejection_taxonomy "s" 0 []).2.2.2.2.1 "zzz" (by decide)
  · exact (protect_rejection_taxonomy "s" 0 []).2.2.2.2.2.1 "u1" 0 10 "t" (by decide)
  · exact (protect_rejection_taxonomy "s" 10 []).2.2.2.2.2.2.1 "u1" 0 10 (by decide)
  · exact (protect_rejection_taxonomy "s" 5 []).2.2.2.2.2.2.2.2 "u1" 0 10
      (by decide) (by decide)

section Helpers2

/-- A user store with no record named `username` has an empty filter for it. -/
theorem filter_username_nil (username : String) (users : List User)
    (h : UserModel.findByUsername username users = none) :
    users.filter (fun u => u.username == username) = [] := by
  unfold UserModel.findByUsername at h
  rw [List.find?_eq_none] at h
  rw [List.filter_eq_nil_iff]
  exact h

/-- Successful `register`: with valid input and an unused username it answers
201 with a fresh token and the public user view, and appends exactly the new
record. -/
theorem register_eq_of_free (username password : String) (salt : Nat)
    (freshId : String) (now : Nat) (secret : String) (expiresIn : Nat)
    (users : List User) (hval : 3 ≤ username.length)
    (hpw : 6 ≤ password.length)
    (hfree : UserModel.findByUsername username users = none) :
    AuthController.register username password salt freshId now secret expiresIn users
      = (.ok 201 (TokenStr.signed freshId now (now + expiresIn) secret)
          ⟨freshId, username⟩,
        users ++ [⟨freshId, username, HashStr.bcrypt salt password⟩]) := by
  unfold AuthController.register
  rw [if_neg (by omega), hfree]
  rfl

/-- `register` with a username that is already taken: 409 and the store is
left untouched (validation passes first, so the inputs must be valid). -/
theorem register_eq_of_taken (username password : String) (salt : Nat)
    (freshId : String) (now : Nat) (secret : String) (expiresIn : Nat)
    (users : List User) (u0 : User) (hval : 3 ≤ username.length)
    (hpw : 6 ≤ password.length)
    (htaken : UserModel.findByUsername username users = some u0) :
    AuthController.register username password salt freshId now secret expiresIn users
      = (.err 409 "User with this username already exists", users) := by
  unfold AuthController.register
  rw [if_neg (by omega), htaken]

/-- `register` either leaves the store untouched, or — exactly when the
username was absent and the input valid — appends one record. -/
theorem register_snd_cases (username password : String) (salt : Nat)
    (freshId : String) (now : Nat) (secret : String) (expiresIn : Nat)
    (users : List User) :
    (AuthController.register username password salt freshId now secret expiresIn users).snd
        = users
    ∨ (UserModel.findByUsername username users = none
        ∧ (AuthController.register username password salt freshId now secret expiresIn users).snd
            = users ++ [⟨freshId, username, HashStr.bcrypt salt password⟩]) := by
  unfold AuthController.register
  split
  · exact Or.inl rfl
  · split
    · exact Or.inl rfl
    · rename_i hfind
      exact Or.inr ⟨hfind, rfl⟩

/-- `login` never changes the store, in any branch. -/
theorem login_snd_eq (username password : String) (now : Nat)
    (secret : String) (expiresIn : Nat) (users : List User) :
    (AuthController.login username password now secret expiresIn users).snd
      = users := by
  unfold AuthController.login
  repeat' split
  all_goals rfl

/-- Successful `login`: with a present username and a matching password it
answers 200 with a fresh token for the stored user. -/
theorem login_ok_eq (username password : String) (now : Nat)
    (secret : String) (expiresIn : Nat) (users : List User) (u0 : User)
    (hu : username ≠ "") (hp : password ≠ "")
    (hfound : UserModel.findByUsername username users = some u0)
    (hcmp : bcryptCompare password u0.password = true) :
    AuthController.login username password now secret expiresIn users
      = (.ok 200 (TokenStr.signed u0.id now (now + expiresIn) secret)
          ⟨u0.id, u0.username⟩, users) := by
  unfold AuthController.login
  rw [if_neg (by simp [hu, hp]), if_neg (by simp [hu, hp]), hfound]
  simp [hcmp, signToken, jwtSign]

end Helpers2

/-- C6: on success, `register` answers 201 with a token issued for the
freshly generated id and a public view holding only `id` and `username`
(the `PublicUser` type has no password field, mirroring the literal
`{ id: newUser.id, username: newUser.username }` in the response), and the
store gains exactly the new record with the hashed password. -/
theorem register_success (username password : String) (salt : Nat)
    (freshId : String) (now : Nat) (secret : String) (expiresIn : Nat)
    (users : List User) (hval : 3 ≤ username.length)
    (hpw : 6 ≤ password.length)
    (hfree : UserModel.findByUsername username users = none) :
    AuthController.register username password salt freshId now secret expiresIn users
      = (.ok 201 (signToken freshId secret now expiresIn) ⟨freshId, username⟩,
        users ++ [⟨freshId, username, bcryptHash password salt⟩]) :=
  register_eq_of_free username password salt freshId now secret expiresIn users
    hval hpw hfree

/-- Witness for `register_success` at a concrete input. -/
theorem register_success_witness :
    AuthController.register "alice" "secret1" 7 "id1" 100 "s" 50 []
      = (.ok 201 (signToken "id1" "s" 100 50) ⟨"id1", "alice"⟩,
        [⟨"id1", "alice", bcryptHash "secret1" 7⟩]) :=
  register_success "alice" "secret1" 7 "id1" 100 "s" 50 []
    (by decide) (by decide) (by decide)

/-- C5: `register` with a username already present in the store (and valid
input, as enforced by the earlier validation middleware) fails with 409
Conflict and leaves the store untouched; concretely, registering a free
username and then registering it again makes the second call fail with 409,
the failing call changes nothing, and the store holds exactly one record for
that username. -/
theorem register_twice_conflict (username password password2 : String)
    (salt salt2 : Nat) (freshId freshId2 : String) (now now2 : Nat)
    (secret : String) (expiresIn : Nat) (users : List User)
    (hval : 3 ≤ username.length) (hpw : 6 ≤ password.length)
    (hpw2 : 6 ≤ password2.length)
    (hfree : UserModel.findByUsername username users = none) :
    (∀ (users' : List User) (u0 : User),
      UserModel.findByUsername username users' = some u0 →
      AuthController.register username password2 salt2 freshId2 now2 secret expiresIn users'
        = (.err 409 "User with this username already exists", users'))
    ∧ ∃ users1 : List User,
      (AuthController.register username password salt freshId now secret expiresIn users).snd
          = users1
      ∧ AuthController.register username password2 salt2 freshId2 now2 secret expiresIn users1
          = (.err 409 "User with this username already exists", users1)
      ∧ (users1.filter (fun u => u.username == username)).length = 1 := by
  refine ⟨?_, users ++ [⟨freshId, username, HashStr.bcrypt salt password⟩],
    ?_, ?_, ?_⟩
  · intro users' u0 htaken
    exact register_eq_of_taken username password2 salt2 freshId2 now2 secret
      expiresIn users' u0 hval hpw2 htaken
  · rw [register_eq_of_free username password salt freshId now secret expiresIn
      users hval hpw hfree]
  · refine register_eq_of_taken username password2 salt2 freshId2 now2 secret
      expiresIn _ ⟨freshId, username, HashStr.bcrypt salt password⟩ hval hpw2 ?_
    unfold UserModel.findByUsername
    rw [find?_append_of_none _ _ _ hfree]
    simp [List.find?]
  · rw [List.filter_append, filter_username_nil username users hfree]
    simp

/-- Witness for `register_twice_conflict` at a concrete input. -/
theorem register_twice_conflict_witness :
    AuthController.register "alice" "secret2" 8 "id2" 200 "s" 50
        [⟨"id1", "alice", HashStr.bcrypt 7 "secret1"⟩]
      = (.err 409 "User with this username already exists",
        [⟨"id1", "alice", HashStr.bcrypt 7 "secret1"⟩])
    ∧ ∃ users1 : List User,
      (AuthController.register "alice" "secret1" 7 "id1" 100 "s" 50 []).snd = users1
      ∧ AuthController.register "alice" "secret2" 8 "id2" 200 "s" 50 users1
          = (.err 409 "User with this username already exists", users1)
      ∧ (users1.filter (fun u => u.username == "alice")).length = 1 :=
  ⟨(register_twice_conflict "alice" "secret1" "secret2" 7 8 "id1" "id2" 100 200
      "s" 50 [] (by decide) (by decide) (by decide) (by decide)).1
      [⟨"id1", "alice", HashStr.bcrypt 7 "secret1"⟩]
      ⟨"id1", "alice", HashStr.bcrypt 7 "secret1"⟩ (by decide),
   (register_twice_conflict "alice" "secret1" "secret2" 7 8 "id1" "id2" 100 200
      "s" 50 [] (by decide) (by decide) (by decide) (by decide)).2⟩

/-- C7: the Password Hasher round-trip — verifying a plaintext against its
own hash succeeds; against the hash of a different plaintext it fails; and
against a malformed hash string it returns false rather than throwing
(modelled from the spec, since bcryptjs is an external library). -/
theorem hash_verify_roundtrip (plain other malformedStr : String)
    (salt salt2 : Nat) (hne : plain ≠ other) :
    bcryptCompare plain (bcryptHash plain salt) = true
    ∧ bcryptCompare plain (bcryptHash other salt2) = false
    ∧ bcryptCompare plain (.malformedHash malformedStr) = false := by
  refine ⟨?_, ?_, rfl⟩
  · simp [bcryptCompare, bcryptHash]
  · simp [bcryptCompare, bcryptHash, hne]

/-- Witness for `hash_verify_roundtrip` at concrete plaintexts. -/
theorem hash_verify_roundtrip_witness :
    bcryptCompare "secret1" (bcryptHash "secret1" 12) = true
    ∧ bcryptCompare "secret1" (bcryptHash "hunter2" 12) = false
    ∧ bcryptCompare "secret1" (.malformedHash "not-a-hash") = false :=
  hash_verify_roundtrip "secret1" "hunter2" "not-a-hash" 12 12 (by decide)

/-- C2: `register` followed by `login` with the same (valid, unused)
credentials both succeed, and the token returned by `login` is accepted by
the access gate, which resolves it to the registered user. -/
theorem register_login_authenticate (username password : String) (salt : Nat)
    (freshId : String) (now1 now2 now3 : Nat) (secret : String)
    (expiresIn : Nat) (users : List User)
    (hval : 3 ≤ username.length) (hpw : 6 ≤ password.length)
    (hfree : UserModel.findByUsername username users = none)
    (hid : ∀ u ∈ users, u.id ≠ freshId)
    (hexp : now3 < now2 + expiresIn) :
    ∃ (tok1 tok2 : TokenStr) (users1 : List User),
      AuthController.register username password salt freshId now1 secret expiresIn users
        = (.ok 201 tok1 ⟨freshId, username⟩, users1)
      ∧ AuthController.login username password now2 secret expiresIn users1
          = (.ok 200 tok2 ⟨freshId, username⟩, users1)
      ∧ AuthMiddleware.protect (some ⟨"Bearer", some tok2⟩) secret now3 users1
          = .accepted ⟨freshId, username, bcryptHash password salt⟩ := by
  refine ⟨TokenStr.signed freshId now1 (now1 + expiresIn) secret,
    TokenStr.signed freshId now2 (now2 + expiresIn) secret,
    users ++ [⟨freshId, username, HashStr.bcrypt salt password⟩],
    register_eq_of_free username password salt freshId now1 secret expiresIn
      users hval hpw hfree, ?_, ?_⟩
  · have h0 : ("" : String).length = 0 := rfl
    have hu : username ≠ "" := by
      intro h; rw [h, h0] at hval; omega
    have hp : password ≠ "" := by
      intro h; rw [h, h0] at hpw; omega
    have hfound : UserModel.findByUsername username
        (users ++ [⟨freshId, username, HashStr.bcrypt salt password⟩])
          = some ⟨freshId, username, HashStr.bcrypt salt password⟩ := by
      unfold UserModel.findByUsername at hfree ⊢
      rw [find?_append_of_none _ _ _ hfree]
      simp [List.find?]
    rw [login_ok_eq username password now2 secret expiresIn _
      ⟨freshId, username, HashStr.bcrypt salt password⟩ hu hp hfound
      (by simp [bcryptCompare])]
  · rw [protect_bearer (TokenStr.signed freshId now2 (now2 + expiresIn) secret)
      secret now3
      (users ++ [User.mk freshId username (HashStr.bcrypt salt password)]) rfl]
    have hsig : jwtVerify (TokenStr.signed freshId now2 (now2 + expiresIn) secret)
        secret now3 = .ok ⟨freshId⟩ := by
      simp [jwtVerify, show ¬ now3 ≥ now2 + expiresIn from by omega]
    rw [hsig]
    have hfid : UserModel.findById freshId
        (users ++ [⟨freshId, username, HashStr.bcrypt salt password⟩])
          = some ⟨freshId, username, HashStr.bcrypt salt password⟩ := by
      unfold UserModel.findById
      rw [find?_append_of_none]
      · simp [List.find?]
      · rw [List.find?_eq_none]
        intro u hu
        simp [hid u hu]
    simp [AuthMiddleware.handleVerify, hfid, bcryptHash]

/-- Witness for `register_login_authenticate` at a concrete input. -/
theorem register_login_authenticate_witness :
    ∃ (tok1 tok2 : TokenStr) (users1 : List User),
      AuthController.register "alice" "secret1" 3 "id1" 0 "s" 60 []
        = (.ok 201 tok1 ⟨"id1", "alice"⟩, users1)
      ∧ AuthController.login "alice" "secret1" 10 "s" 60 users1
          = (.ok 200 tok2 ⟨"id1", "alice"⟩, users1)
      ∧ AuthMiddleware.protect (some ⟨"Bearer", some tok2⟩) "s" 20 users1
          = .accepted ⟨"id1", "alice", bcryptHash "secret1" 3⟩ :=
  register_login_authenticate "alice" "secret1" 3 "id1" 0 10 20 "s" 60 []
    (by decide) (by decide) (by decide) (by simp) (by decide)

/-- C4: an unknown username and a wrong password for an existing username
fail with the identical observable output — the same message and the same
401 status — so the two runs of `login` are indistinguishable to the
caller. -/
theorem login_indistinguishable (username1 password1 username2 password2 : String)
    (now1 now2 : Nat) (secret : String) (expiresIn : Nat)
    (users1 users2 : List User) (u0 : User)
    (h1u : username1 ≠ "") (h1p : password1 ≠ "")
    (h2u : username2 ≠ "") (h2p : password2 ≠ "")
    (hunknown : UserModel.findByUsername username1 users1 = none)
    (hfound : UserModel.findByUsername username2 users2 = some u0)
    (hwrong : bcryptCompare password2 u0.password = false) :
    (AuthController.login username1 password1 now1 secret expiresIn users1).fst
      = .err 401 "Incorrect username or password"
    ∧ (AuthController.login username2 password2 now2 secret expiresIn users2).fst
      = .err 401 "Incorrect username or password"
    ∧ (AuthController.login username1 password1 now1 secret expiresIn users1).fst
      = (AuthController.login username2 password2 now2 secret expiresIn users2).fst := by
  have e1 : (AuthController.login username1 password1 now1 secret expiresIn users1).fst
      = .err 401 "Incorrect username or password" := by
    unfold AuthController.login
    rw [if_neg (by simp [h1u, h1p]), if_neg (by simp [h1u, h1p]), hunknown]
  have e2 : (AuthController.login username2 password2 now2 secret expiresIn users2).fst
      = .err 401 "Incorrect username or password" := by
    unfold AuthController.login
    rw [if_neg (by simp [h2u, h2p]), if_neg (by simp [h2u, h2p]), hfound]
    simp [hwrong]
  exact ⟨e1, e2, e1.trans e2.symm⟩

/-- Witness for `login_indistinguishable`: unknown user `carol` against a
wrong password for the stored user `bob`. -/
theorem login_indistinguishable_witness :
    (AuthController.login "carol" "pw1234" 0 "s" 60 []).fst
      = .err 401 "Incorrect username or password"
    ∧ (AuthController.login "bob" "wrong1" 0 "s" 60
        [⟨"u1", "bob", HashStr.bcrypt 0 "pw1234"⟩]).fst
      = .err 401 "Incorrect username or password"
    ∧ (AuthController.login "carol" "pw1234" 0 "s" 60 []).fst
      = (AuthController.login "bob" "wrong1" 0 "s" 60
          [⟨"u1", "bob", HashStr.bcrypt 0 "pw1234"⟩]).fst :=
  login_indistinguishable "carol" "pw1234" "bob" "wrong1" 0 0 "s" 60 []
    [⟨"u1", "bob", HashStr.bcrypt 0 "pw1234"⟩]
    ⟨"u1", "bob", HashStr.bcrypt 0 "pw1234"⟩
    (by decide) (by decide) (by decide) (by decide)
    (by decide) (by decide) (by decide)

/-- C8: `login` never changes the Credential Store, in any branch; `register`
either leaves it unchanged (on failure) or appends exactly one record. -/
theorem login_pure_register_appends (username password : String) (salt : Nat)
    (freshId : String) (nowl nowr : Nat) (secret : String) (expiresIn : Nat)
    (users : List User) :
    (AuthController.login username password nowl secret expiresIn users).snd = users
    ∧ ((AuthController.register username password salt freshId nowr secret expiresIn users).snd
          = users
        ∨ ∃ newUser : User,
            (AuthController.register username password salt freshId nowr secret expiresIn users).snd
              = users ++ [newUser]) := by
  refine ⟨login_snd_eq username password nowl secret expiresIn users, ?_⟩
  rcases register_snd_cases username password salt freshId nowr secret expiresIn users
    with h | ⟨-, h⟩
  · exact Or.inl h
  · exact Or.inr ⟨_, h⟩

/-- C9 (amended): `userModel.create` itself inserts unconditionally, but the
duplicate check in `register` runs before every insertion, so username
uniqueness is an invariant of every store state reachable through the Auth
Service operations: if no two records share a username, none do after any
sequence of `register`/`login` calls. -/
theorem auth_ops_preserve_unique_usernames (secret : String) (expiresIn : Nat)
    (ops : List AuthOp) (users : List User) (h : uniqueUsernames users) :
    uniqueUsernames (runOps secret expiresIn ops users) := by
  induction ops generalizing users with
  | nil => simpa [runOps] using h
  | cons op ops ih =>
    simp only [runOps]
    apply ih
    cases op with
    | log u p n =>
      simp only [applyOp]
      rw [login_snd_eq]
      exact h
    | reg u p s f n =>
      simp only [applyOp]
      rcases register_snd_cases u p s f n secret expiresIn users
        with heq | ⟨hfree, heq⟩
      · rw [heq]; exact h
      · rw [heq]
        unfold uniqueUsernames at h ⊢
        rw [List.pairwise_append]
        refine ⟨h, by simp, ?_⟩
        intro a ha b hb
        rw [List.mem_singleton] at hb
        subst hb
        unfold UserModel.findByUsername at hfree
        rw [List.find?_eq_none] at hfree
        simpa using hfree a ha

/-- Counterexample to C9 as stated: the store-level insert operation
(`userModel.create`) does not reject duplicate usernames — called with a
username that is already present it succeeds and produces a store with two
records sharing that username. -/
theorem create_duplicate_username_cex :
    (UserModel.create "alice" (HashStr.bcrypt 1 "pw2") "id1"
        [⟨"id0", "alice", HashStr.bcrypt 0 "pw"⟩]).fst
      = ⟨"id1", "alice", HashStr.bcrypt 1 "pw2"⟩
    ∧ ((UserModel.create "alice" (HashStr.bcrypt 1 "pw2") "id1"
        [⟨"id0", "alice", HashStr.bcrypt 0 "pw"⟩]).snd.filter
          (fun u => u.username == "alice")).length = 2
    ∧ ¬ uniqueUsernames (UserModel.create "alice" (HashStr.bcrypt 1 "pw2") "id1"
        [⟨"id0", "alice", HashStr.bcrypt 0 "pw"⟩]).snd := by
  refine ⟨rfl, by decide, ?_⟩
  intro h
  have h' : List.Pairwise (fun a b : User => a.username ≠ b.username)
      [⟨"id0", "alice", HashStr.bcrypt 0 "pw"⟩,
       ⟨"id1", "alice", HashStr.bcrypt 1 "pw2"⟩] := h
  exact (List.pairwise_cons.mp h').1 _ (List.mem_singleton_self _) rfl

/-- Witness for `auth_ops_preserve_unique_usernames`: a concrete run of
register/login operations from the empty store keeps usernames unique. -/
theorem auth_ops_preserve_unique_usernames_witness :
    uniqueUsernames (runOps "s" 60
      [.reg "alice" "secret1" 1 "id1" 0,
       .reg "alice" "secret2" 2 "id2" 5,
       .log "alice" "secret1" 9,
       .reg "bobby" "secret3" 3 "id3" 7] []) :=
  auth_ops_preserve_unique_usernames "s" 60
    [.reg "alice" "secret1" 1 "id1" 0,
     .reg "alice" "secret2" 2 "id2" 5,
     .log "alice" "secret1" 9,
     .reg "bobby" "secret3" 3 "id3" 7] [] (by simp [uniqueUsernames])

/-- C10: for an authenticated user and any task id, each of `getTask`,
`updateTask` and `deleteTask` fails with 404 and leaves the task store
unchanged whenever no task with that id exists or the task belongs to a
different user — so a user's single-task operations never read or modify
another user's tasks. -/
theorem task_ops_owner_isolation (id userId : String)
    (upd : TaskModel.TaskUpdates) (tasks : List TaskModel.Task)
    (h : TaskModel.findById id tasks = none
        ∨ ∃ t, TaskModel.findById id tasks = some t ∧ t.userId ≠ userId) :
    ((TaskController.getTask id userId tasks).fst
        = .failure 404 "No task found with that ID or you do not have permission."
      ∧ (TaskController.getTask id userId tasks).snd = tasks)
    ∧ ((TaskController.updateTask id userId upd tasks).fst
        = .failure 404 "No task found with that ID or you do not have permission to update it."
      ∧ (TaskController.updateTask id userId upd tasks).snd = tasks)
    ∧ ((TaskController.deleteTask id userId tasks).fst
        = .failure 404 "No task found with that ID or you do not have permission to delete it."
      ∧ (TaskController.deleteTask id userId tasks).snd = tasks) := by
  rcases h with hnone | ⟨t, hsome, hne⟩
  · unfold TaskController.getTask TaskController.updateTask TaskController.deleteTask
    rw [hnone]
    exact ⟨⟨rfl, rfl⟩, ⟨rfl, rfl⟩, ⟨rfl, rfl⟩⟩
  · unfold TaskController.getTask TaskController.updateTask TaskController.deleteTask
    rw [hsome]
    have hb : (t.userId == userId) = false := by simpa using hne
    simp [hb]

/-- Witness for `task_ops_owner_isolation`: user `u2` cannot reach task `t1`,
which belongs to `u1`. -/
theorem task_ops_owner_isolation_witness :
    (TaskController.getTask "t1" "u2" [⟨"t1", "u1", "Title", "", false⟩]).fst
      = .failure 404 "No task found with that ID or you do not have permission."
    ∧ (TaskController.deleteTask "t1" "u2" [⟨"t1", "u1", "Title", "", false⟩]).snd
      = [⟨"t1", "u1", "Title", "", false⟩] :=
  ⟨(task_ops_owner_isolation "t1" "u2" ⟨none, none, none⟩
      [⟨"t1", "u1", "Title", "", false⟩]
      (Or.inr ⟨⟨"t1", "u1", "Title", "", false⟩, by decide, by decide⟩)).1.1,
   (task_ops_owner_isolation "t1" "u2" ⟨none, none, none⟩
      [⟨"t1", "u1", "Title", "", false⟩]
      (Or.inr ⟨⟨"t1", "u1", "Title", "", false⟩, by decide, by decide⟩)).2.2.2⟩
